import Mathlib

/-!
Verification of the `npc` Home Assistant integration (EVN Vietnam electricity
data).  The definitions below are a shallow embedding of the Python sources:

* `custom_components/npc/coordinator.py` — `_parse_date`, `_parse_float`,
  `_save_daily_data`, `_save_monthly_data`, `_save_bill_data`,
  `_save_hoadon_to_monthly_bill`, `_save_outage_data`, `_async_update_data`;
* `custom_components/npc/npc_api.py` — the 401/re-login retry control flow of
  `get_chisongay` (generic-region branch) and
  `_convert_spc_outage_to_standard_format`;
* `custom_components/npc/views.py` — `EVNStaticView.get`.

Python dicts are association lists over `PyVal` (None / str / number, numbers
modelled as rationals), SQLite tables are finite maps keyed by their primary
keys, and `INSERT OR REPLACE` is an upsert on those maps.
-/

set_option maxHeartbeats 1000000

namespace NpcSpec

/-- A Python value as it occurs in the JSON records this integration handles:
`None`, a string, or a number (ints and floats both modelled as rationals). -/
inductive PyVal where
  | vNone : PyVal
  | vStr (s : String) : PyVal
  | vNum (q : Rat) : PyVal
  deriving DecidableEq, Repr

open PyVal

/-- A Python dict with string keys, modelled as an association list.
(No code under verification iterates over dict entries, so entry order is
irrelevant; lookups and updates below respect Python dict semantics.) -/
abbrev Dict := List (String × PyVal)

/-- Dict lookup: `d[k]` when present, `none` when absent. -/
def dget : Dict → String → Option PyVal
  | [], _ => none
  | (k, v) :: rest, key => if k = key then some v else dget rest key

/-- Python `record.get(key)`: returns `None` when the key is absent. -/
def dgetv (d : Dict) (k : String) : PyVal := (dget d k).getD vNone

/-- Python `record.get(key, default)`. -/
def dgetd (d : Dict) (k : String) (dflt : PyVal) : PyVal := (dget d k).getD dflt

/-- Dict update `d[k] = v`.  (Rebinds the key; position of entries is
irrelevant for the verified code, see `Dict`.) -/
def dinsert (d : Dict) (k : String) (v : PyVal) : Dict :=
  d.filter (fun p => !(p.1 == k)) ++ [(k, v)]

/-- Python truthiness for the values we model: `None`, `""` and `0` are
falsy, everything else is truthy. -/
def pyTruthy : PyVal → Bool
  | vNone => false
  | vStr s => if s = "" then false else true
  | vNum q => if q = 0 then false else true

/-- Python `a or b`. -/
def pyOrV (a b : PyVal) : PyVal := if pyTruthy a then a else b

/-- Python `str()` on the values we model.  `str(None) = "None"`.  The
rendering of numbers is a stand-in (`toString` of the rational); no claim
depends on the textual form of a number. -/
def pyStr : PyVal → String
  | vNone => "None"
  | vStr s => s
  | vNum q => toString q

/-- Python `str.strip()`: whitespace removed from both ends. -/
def pyStrip (cs : List Char) : List Char :=
  ((cs.dropWhile Char.isWhitespace).reverse.dropWhile Char.isWhitespace).reverse

/-- Value of a string of decimal digits. -/
def decDigitsVal (cs : List Char) : Nat := cs.foldl (fun a c => a * 10 + (c.toNat - 48)) 0

/-- Python `float(s)` restricted to plain decimal literals (optional sign,
integer part, optional fractional part).  Exponent forms and the special
strings `inf`/`nan` are not modelled; no claim depends on them. -/
def pyFloatOfString (s : String) : Option Rat :=
  let cs := s.toList
  let signed : Rat × List Char :=
    match cs with
    | '-' :: rest => (-1, rest)
    | '+' :: rest => (1, rest)
    | _ => (1, cs)
  let sign := signed.1
  let cs := signed.2
  let ip := cs.takeWhile Char.isDigit
  let rest := cs.dropWhile Char.isDigit
  match rest with
  | [] => if ip.isEmpty then none else some (sign * (decDigitsVal ip : Rat))
  | '.' :: frac =>
    if frac.all Char.isDigit ∧ ¬(ip.isEmpty ∧ frac.isEmpty) then
      some (sign * ((decDigitsVal ip : Rat) + (decDigitsVal frac : Rat) / ((10 : Rat) ^ frac.length)))
    else none
  | _ => none

/-- `EVNDataUpdateCoordinator._parse_float`: `None` stays `None`, numbers are
passed through, strings are stripped, `,` replaced by `.`, spaces removed,
then parsed as a float (`None` on failure). -/
def parseFloat : PyVal → Option Rat
  | vNone => none
  | vNum q => some q
  | vStr s =>
    pyFloatOfString (String.mk
      (((pyStrip s.toList).map (fun c => if c == ',' then '.' else c)).filter (fun c => !(c == ' '))))

/-! ### Dates: validity, rendering, and the strptime formats used -/

/-- The digit character of `k` for `k < 10`. -/
def digitCharAux : Nat → Char
  | 0 => '0' | 1 => '1' | 2 => '2' | 3 => '3' | 4 => '4'
  | 5 => '5' | 6 => '6' | 7 => '7' | 8 => '8' | _ => '9'

/-- The digit character of `n % 10`. -/
def digitChar (n : Nat) : Char := digitCharAux (n % 10)

/-- Numeric value of a digit character. -/
def dval (c : Char) : Nat := c.toNat - 48

/-- Gregorian leap year (as Python's `datetime`). -/
def isLeap (y : Nat) : Bool := (y % 4 == 0) && (!(y % 100 == 0) || y % 400 == 0)

/-- Days in a month of the proleptic Gregorian calendar. -/
def daysInMonth (y m : Nat) : Nat :=
  if m = 2 then (if isLeap y then 29 else 28)
  else if m = 4 ∨ m = 6 ∨ m = 9 ∨ m = 11 then 30
  else 31

/-- A valid date in Python `datetime`'s range (year 1..9999). -/
def validDate (d m y : Nat) : Bool :=
  decide (1 ≤ y ∧ y ≤ 9999 ∧ 1 ≤ m ∧ m ≤ 12 ∧ 1 ≤ d ∧ d ≤ daysInMonth y m)

/-- Two-digit zero-padded rendering of `n < 100` (strftime `%d`, `%m`). -/
def pad2 (n : Nat) : List Char := [digitChar (n / 10), digitChar n]

/-- Four-digit zero-padded rendering of `n < 10000`. -/
def pad4 (n : Nat) : List Char :=
  [digitChar (n / 1000), digitChar (n / 100), digitChar (n / 10), digitChar n]

/-- Decimal digits of `n` without padding: C `strftime` renders `%Y`
without zero padding (`datetime(999,1,1).strftime("%Y") = "999"`). -/
def natChars (n : Nat) : List Char := (toString n).toList

/-- `dt.strftime("%d-%m-%Y")` as a character list. -/
def fmtL (d m y : Nat) : List Char := pad2 d ++ '-' :: (pad2 m ++ '-' :: natChars y)

/-- `fmtL` on a day/month/year triple. -/
def fmtTriple (t : Nat × Nat × Nat) : List Char := fmtL t.1 t.2.1 t.2.2

/-- `dt.strftime("%d-%m-%Y")` as a string. -/
def fmtDMY (d m y : Nat) : String := String.mk (fmtL d m y)

/-- The `%d` field of CPython strptime on a two-character window: the regex
is `3[0-1]|[1-2]\d|0[1-9]|[1-9]| [1-9]`, so either two digits or a space
followed by a digit (out-of-range values are rejected by `validDate` below,
matching the regex plus the `datetime` constructor). -/
def dayField (a b : Char) : Option Nat :=
  if a = ' ' ∧ b.isDigit then some (dval b)
  else if a.isDigit ∧ b.isDigit then some (dval a * 10 + dval b)
  else none

/-- `datetime.strptime(s, "%d/%m/%Y")` on a 10-character string whose third
character is `/` (the only shape reaching this call in `_parse_date`).  With
exactly 10 characters every strptime field is at its maximal width, so the
string decomposes as day(2)/month(2)/year(4); CPython's `%Y` is exactly four
digits. -/
def parseSlash : List Char → Option (Nat × Nat × Nat)
  | [a, b, s1, m1, m2, s2, y1, y2, y3, y4] =>
    if s1 = '/' ∧ s2 = '/' ∧ m1.isDigit ∧ m2.isDigit ∧
        y1.isDigit ∧ y2.isDigit ∧ y3.isDigit ∧ y4.isDigit then
      match dayField a b with
      | some d =>
        let m := dval m1 * 10 + dval m2
        let y := dval y1 * 1000 + dval y2 * 100 + dval y3 * 10 + dval y4
        if validDate d m y then some (d, m, y) else none
      | none => none
    else none
  | _ => none

/-- `datetime.strptime(s, "%Y-%m-%d")` on a 10-character string whose fifth
character is `-` (maximal widths as in `parseSlash`). -/
def parseIso : List Char → Option (Nat × Nat × Nat)
  | [y1, y2, y3, y4, s1, m1, m2, s2, a, b] =>
    if s1 = '-' ∧ s2 = '-' ∧ m1.isDigit ∧ m2.isDigit ∧
        y1.isDigit ∧ y2.isDigit ∧ y3.isDigit ∧ y4.isDigit then
      match dayField a b with
      | some d =>
        let m := dval m1 * 10 + dval m2
        let y := dval y1 * 1000 + dval y2 * 100 + dval y3 * 10 + dval y4
        if validDate d m y then some (d, m, y) else none
      | none => none
    else none
  | _ => none

/-- `datetime.strptime(s, "%Y%m%d")` on an 8-digit string: year is the
first four digits (`%Y` is exactly four digits), then zero-padded month and
day; the regex month/day ranges together with the `datetime` constructor are
exactly `validDate`. -/
def parseCompact : List Char → Option (Nat × Nat × Nat)
  | [y1, y2, y3, y4, m1, m2, d1, d2] =>
    if y1.isDigit ∧ y2.isDigit ∧ y3.isDigit ∧ y4.isDigit ∧
        m1.isDigit ∧ m2.isDigit ∧ d1.isDigit ∧ d2.isDigit then
      let y := dval y1 * 1000 + dval y2 * 100 + dval y3 * 10 + dval y4
      let m := dval m1 * 10 + dval m2
      let d := dval d1 * 10 + dval d2
      if validDate d m y then some (d, m, y) else none
    else none
  | _ => none

/-- `datetime.strptime(s, "%d%m%Y")` on an 8-character string: succeeds only
when all eight characters are digits (day, month zero padded, `%Y` exactly
four digits). -/
def parseDdmm : List Char → Option (Nat × Nat × Nat)
  | [d1, d2, m1, m2, y1, y2, y3, y4] =>
    if d1.isDigit ∧ d2.isDigit ∧ m1.isDigit ∧ m2.isDigit ∧
        y1.isDigit ∧ y2.isDigit ∧ y3.isDigit ∧ y4.isDigit then
      let d := dval d1 * 10 + dval d2
      let m := dval m1 * 10 + dval m2
      let y := dval y1 * 1000 + dval y2 * 100 + dval y3 * 10 + dval y4
      if validDate d m y then some (d, m, y) else none
    else none
  | _ => none

/-- The format-detection chain of `_parse_date` (the `try`/`elif` block,
coordinator.py lines 457-479).  A failing `strptime` in a taken branch exits
the whole `try` (the exception is caught and the field is skipped), which is
`none` here; the dead fifth branch (`%d%m%Y`) is kept as in the source. -/
def tryFormats (cs : List Char) : Option (List Char) :=
  if cs.length = 10 ∧ cs[2]? = some '/' then (parseSlash cs).map fmtTriple
  else if cs.length = 10 ∧ cs[4]? = some '-' then (parseIso cs).map fmtTriple
  else if cs.length = 10 ∧ cs[2]? = some '-' then some cs
  else if cs.length = 8 ∧ cs.all Char.isDigit then (parseCompact cs).map fmtTriple
  else if cs.length = 8 ∧ (cs.take 2).all Char.isDigit ∧ ((cs.drop 2).take 2).all Char.isDigit then
    (parseDdmm cs).map fmtTriple
  else none

/-- `c.lower()` per character (ASCII). -/
def lowerChar (c : Char) : Char := c.toLower

/-- `not date_str or date_str.lower() in ["null", "none", ""]`. -/
def skipVal (cs : List Char) : Bool :=
  decide (cs = []) || decide (cs.map lowerChar = "null".toList)
    || decide (cs.map lowerChar = "none".toList)

/-- The `THOI_DIEM` special case of `_parse_date`: values of that field
containing a space are cut at the first space (`date_str.split(' ')[0]`). -/
def splitThoiDiem (f : String) (cs : List Char) : List Char :=
  if (f = "THOI_DIEM" ∨ f = "thoi_diem") ∧ cs.any (fun c => c == ' ') then
    cs.takeWhile (fun c => !(c == ' '))
  else cs

/-- Processing of one candidate field inside `_parse_date`: stringify and
strip the value, skip null-ish strings, split `THOI_DIEM`-style values at
the first space, then run the format chain. -/
def tryField (f : String) (v : PyVal) : Option (List Char) :=
  if skipVal (pyStrip (pyStr v).toList) then none
  else tryFormats (splitThoiDiem f (pyStrip (pyStr v).toList))

/-- The date-field priority list of `_parse_date`. -/
def dateFields : List String :=
  ["NGAY", "ngay", "NGAY_DO", "ngay_do", "NGAY_DO_CS", "ngay_do_cs",
   "THOI_DIEM", "thoi_diem", "THOI_GIAN", "thoi_gian",
   "NGAY_BAT_DAU", "ngay_bat_dau", "NGAY_KET_THUC", "ngay_ket_thuc"]

/-- The field scan of `_parse_date`: fields absent from the record, skipped
values and parse failures all `continue` to the next candidate. -/
def scanFields (r : Dict) : List String → Option (List Char)
  | [] => none
  | f :: rest =>
    match dget r f with
    | none => scanFields r rest
    | some v =>
      match tryField f v with
      | some out => some out
      | none => scanFields r rest

/-- `EVNDataUpdateCoordinator._parse_date`: scan the date fields in priority
order; when nothing parses, fall back to the current date (`today`, already
rendered `"%d-%m-%Y"`). -/
def parseDate (today : String) (r : Dict) : String :=
  match scanFields r dateFields with
  | some cs => String.mk cs
  | none => today

/-- `datetime.strptime(s, "%d-%m-%Y")`, used by `_parse_date_for_sort` on the
outputs of `_parse_date`; yields a `(year, month, day)` key. -/
def parseKeyDMY (s : String) : Option (Nat × Nat × Nat) :=
  match s.toList with
  | [a, b, s1, m1, m2, s2, y1, y2, y3, y4] =>
    if s1 = '-' ∧ s2 = '-' ∧ m1.isDigit ∧ m2.isDigit ∧
        y1.isDigit ∧ y2.isDigit ∧ y3.isDigit ∧ y4.isDigit then
      match dayField a b with
      | some d =>
        let m := dval m1 * 10 + dval m2
        let y := dval y1 * 1000 + dval y2 * 100 + dval y3 * 10 + dval y4
        if validDate d m y then some (y, m, d) else none
      | none => none
    else none
  | _ => none

/-- `_parse_date_for_sort`: parse the canonical date back into a comparison
key; on failure fall back to the current date `nowKey`. -/
def sortKey (today : String) (nowKey : Nat × Nat × Nat) (r : Dict) : Nat × Nat × Nat :=
  (parseKeyDMY (parseDate today r)).getD nowKey

/-- Chronological (lexicographic year/month/day) strict order on sort keys,
i.e. `datetime <` restricted to midnight datetimes. -/
def keyLt (a b : Nat × Nat × Nat) : Bool :=
  decide (a.1 < b.1 ∨ (a.1 = b.1 ∧ (a.2.1 < b.2.1 ∨ (a.2.1 = b.2.1 ∧ a.2.2 < b.2.2))))

/-- Insert an element behind every element whose key is not greater —
together with `stableSortBy` this models Python's stable `sorted`. -/
def insSorted (key : α → Nat × Nat × Nat) (x : α) : List α → List α
  | [] => [x]
  | y :: ys => if keyLt (key x) (key y) then x :: y :: ys else y :: insSorted key x ys

/-- Stable sort by key (Python `sorted(data, key=...)`). -/
def stableSortBy (key : α → Nat × Nat × Nat) (l : List α) : List α :=
  l.foldl (fun acc x => insSorted key x acc) []

/-! ### Daily consumption rows (`_save_daily_data`) -/

/-- The `chi_so` fallback chain of `_save_daily_data` (Python `or` chain over
`record.get(...)`). -/
def chiSoVal (r : Dict) : PyVal :=
  pyOrV (dgetv r "CHISO_MOI") (pyOrV (dgetv r "chi_so_moi") (pyOrV (dgetv r "CHISO")
    (pyOrV (dgetv r "chi_so") (pyOrV (dgetv r "CHI_SO") (dgetv r "chiSo")))))

/-- The provider-supplied consumption fallback chain of `_save_daily_data`. -/
def dienVal (r : Dict) : PyVal :=
  pyOrV (dgetv r "dien_tieu_thu") (pyOrV (dgetv r "DIEN_TIEU_THU")
    (pyOrV (dgetv r "SAN_LUONG") (pyOrV (dgetv r "san_luong") (dgetv r "DIEN_TIEU_THU_KWH"))))

/-- Daily consumption when the meter-delta rule does not apply. -/
def fallbackDien (r : Dict) : Option Rat := parseFloat (dienVal r)

/-- A row of the `daily_consumption` table: `(chi_so, dien_tieu_thu_kwh)`.
Its key is `(userevn, ngay)`. -/
def DailyVal := Option Rat × Option Rat

/-- The row `_save_daily_data` writes for one record, given the previous
record's `chi_so` (`prev_chi_so`): the meter delta when both readings exist
and the new one is not below the old one, otherwise the provider field. -/
def dailyRow (today u : String) (prev : Option Rat) (r : Dict) :
    (String × String) × DailyVal :=
  let ngay := parseDate today r
  let chiSo := parseFloat (chiSoVal r)
  let dien : Option Rat :=
    match prev, chiSo with
    | some p, some c => if p ≤ c then some (c - p) else fallbackDien r
    | _, _ => fallbackDien r
  ((u, ngay), (chiSo, dien))

/-- The loop body of `_save_daily_data`: rows written in order, threading
`prev_chi_so` (which is updated to the current `chi_so` even when `None`). -/
def processDaily (today u : String) : Option Rat → List Dict → List ((String × String) × DailyVal)
  | _, [] => []
  | prev, r :: rest => dailyRow today u prev r :: processDaily today u (parseFloat (chiSoVal r)) rest

/-- All rows `_save_daily_data` writes: the records are sorted by parsed date
first (stable, like Python's `sorted`), then processed with `prev_chi_so`
initially `None`. -/
def dailyRows (today : String) (nowKey : Nat × Nat × Nat) (u : String) (data : List Dict) :
    List ((String × String) × DailyVal) :=
  processDaily today u none (stableSortBy (sortKey today nowKey) data)

/-! ### Monthly, bill and outage rows -/

/-- A row of the `monthly_bill` table: `(tien_dien, san_luong_kwh)`.  Its key
is `(userevn, thang, nam)`; `thang`/`nam` are stored as the Python values
found in the payload. -/
def MonthVal := Option Rat × Option Rat

/-- The rows `_save_monthly_data` writes (zero or one): consumption from the
first record's `DIEN_TTHU`-chain, else the `CHISO_MOI - CHISO_CU` difference;
no row when neither yields a number.  `tien_dien` is always NULL here. -/
def monthlyRows (u : String) (month year : Nat) (data : List Dict) :
    List ((String × PyVal × PyVal) × MonthVal) :=
  match data with
  | [] => []
  | record :: _ =>
    let sanLuong := parseFloat (pyOrV (dgetv record "DIEN_TTHU") (pyOrV (dgetv record "dien_tthu")
      (pyOrV (dgetv record "SAN_LUONG") (dgetv record "san_luong"))))
    let sanLuong :=
      match sanLuong with
      | some s => some s
      | none =>
        match parseFloat (pyOrV (dgetv record "CHISO_MOI") (dgetv record "chi_so_moi")),
            parseFloat (pyOrV (dgetv record "CHISO_CU") (dgetv record "chi_so_cu")) with
        | some moi, some cu => some (moi - cu)
        | _, _ => none
    match sanLuong with
    | some s => [((u, vNum (month : Rat), vNum (year : Rat)), (none, some s))]
    | none => []

/-- The rows `_save_hoadon_to_monthly_bill` writes: one per bill that has
both `THANG` and `NAM` non-`None`. -/
def hoadonMonthlyRows (u : String) (bills : List Dict) :
    List ((String × PyVal × PyVal) × MonthVal) :=
  bills.filterMap (fun b =>
    let thang := dgetv b "THANG"
    let nam := dgetv b "NAM"
    if thang ≠ vNone ∧ nam ≠ vNone then
      some ((u, thang, nam), (parseFloat (dgetv b "TONG_TIEN"), parseFloat (dgetv b "DIEN_TTHU")))
    else none)

/-- A row of the `tien_no_evn` table: `(tien_no, ngay_cap_nhat)`; its key is
`userevn` alone. -/
def BillVal := Option Rat × String

/-- A bill is unpaid when `TTRANG_TTOAN == "CHUATT"`. -/
def isUnpaid (b : Dict) : Bool := dgetv b "TTRANG_TTOAN" == vStr "CHUATT"

/-- The row `_save_bill_data` writes for an unpaid bill: the parsed
`TONG_TIEN` (defaulting to `0` when absent) and the current date. -/
def billRow (today u : String) (b : Dict) : String × BillVal :=
  (u, (parseFloat (dgetd b "TONG_TIEN" (vNum 0)), today))

/-- The loop of `_save_bill_data`: the first unpaid bill produces the single
row and the loop `break`s; no unpaid bill, no write. -/
def tienNoRows (today u : String) : List Dict → List (String × BillVal)
  | [] => []
  | b :: rest => if isUnpaid b then [billRow today u b] else tienNoRows today u rest

/-- A row of the `power_outage_schedule` table:
`(ngay_ket_thuc, thoi_gian_ket_thuc, ly_do, khu_vuc)`; its key is
`(userevn, ngay_bat_dau, thoi_gian_bat_dau)`. -/
def OutVal := PyVal × PyVal × PyVal × PyVal

/-- The row `_save_outage_data` writes for one outage record: multi-name
fallback chains, then the two dates re-parsed through `_parse_date` when
truthy. -/
def outageRow (today u : String) (o : Dict) : (String × PyVal × PyVal) × OutVal :=
  let ngayBatDau := pyOrV (dgetv o "NGAY_BAT_DAU") (pyOrV (dgetv o "ngay_bat_dau")
    (pyOrV (dgetv o "NGAY") (dgetv o "ngay")))
  let ngayKetThuc := pyOrV (dgetv o "NGAY_KET_THUC") (pyOrV (dgetv o "ngay_ket_thuc")
    (pyOrV (dgetv o "NGAY") (dgetv o "ngay")))
  let thoiGianBatDau := pyOrV (dgetv o "THOI_GIAN_BAT_DAU") (pyOrV (dgetv o "thoi_gian_bat_dau")
    (pyOrV (dgetv o "THOI_GIAN") (pyOrV (dgetv o "thoi_gian")
      (pyOrV (dgetv o "THOI_DIEM") (pyOrV (dgetv o "thoi_diem") (vStr ""))))))
  let thoiGianKetThuc := pyOrV (dgetv o "THOI_GIAN_KET_THUC")
    (pyOrV (dgetv o "thoi_gian_ket_thuc") (vStr ""))
  let lyDo := pyOrV (dgetv o "LY_DO") (pyOrV (dgetv o "ly_do")
    (pyOrV (dgetv o "NOI_DUNG") (pyOrV (dgetv o "noi_dung") (vStr ""))))
  let khuVuc := pyOrV (dgetv o "KHU_VUC") (pyOrV (dgetv o "khu_vuc")
    (pyOrV (dgetv o "DIA_CHI") (pyOrV (dgetv o "dia_chi") (vStr ""))))
  let ngayBatDau := if pyTruthy ngayBatDau then vStr (parseDate today [("NGAY", ngayBatDau)]) else ngayBatDau
  let ngayKetThuc := if pyTruthy ngayKetThuc then vStr (parseDate today [("NGAY", ngayKetThuc)]) else ngayKetThuc
  ((u, ngayBatDau, thoiGianBatDau), (ngayKetThuc, thoiGianKetThuc, lyDo, khuVuc))

/-- All rows `_save_outage_data` writes. -/
def outageRows (today u : String) (data : List Dict) : List ((String × PyVal × PyVal) × OutVal) :=
  data.map (outageRow today u)

/-! ### Tables and the fetch-and-store cycle -/

/-- A SQLite table with primary key `κ`: a finite map from keys to rows. -/
def Table (κ ν : Type) := κ → Option ν

/-- `INSERT OR REPLACE`: write row `v` under key `k`, replacing any previous
row with the same primary key. -/
def upsert [DecidableEq κ] (k : κ) (v : ν) (t : Table κ ν) : Table κ ν :=
  fun k2 => if k2 = k then some v else t k2

/-- A sequence of `INSERT OR REPLACE` statements, first to last. -/
def upsertAll [DecidableEq κ] (rows : List (κ × ν)) (t : Table κ ν) : Table κ ν :=
  rows.foldl (fun t kv => upsert kv.1 kv.2 t) t

/-- The persistent state: the four tables of the integration. -/
structure DB where
  daily : Table (String × String) DailyVal
  monthly : Table (String × PyVal × PyVal) MonthVal
  tienNo : Table String BillVal
  outage : Table (String × PyVal × PyVal) OutVal

/-- The coordinator's configuration as stored by
`EVNDataUpdateCoordinator.__init__`: the account id and the billing-cycle
start day `ngaydauky` (1-31, from the config flow). -/
structure Coord where
  customerId : String
  ngaydauky : Nat

/-- The ambient clock values `_async_update_data` reads from
`datetime.now()`: the date rendered `"%d-%m-%Y"`, the comparison key, and
the current month/year. -/
structure NowInfo where
  str : String
  key : Nat × Nat × Nat
  month : Nat
  year : Nat

/-- One cycle's upstream responses, already unwrapped to their `"data"`
payloads (an empty list stands for a missing/empty payload; both are
skipped by the saves). -/
structure Upstream where
  daily : List Dict
  monthCur : List Dict
  monthPrev : List Dict
  bills : List Dict
  outage : List Dict

/-- Previous month/year as computed in `_async_update_data`. -/
def prevMonthYear (m y : Nat) : Nat × Nat := if m = 1 then (12, y - 1) else (m - 1, y)

/-- The store phase of `_async_update_data`: daily rows, monthly rows for
the current and previous month, bill rows into `monthly_bill` and
`tien_no_evn`, and outage rows, each table updated by `INSERT OR REPLACE`.
`ngaydauky` is stored in the coordinator but never read here — exactly as in
the source. -/
def runCycle (c : Coord) (now : NowInfo) (up : Upstream) (db : DB) : DB :=
  let u := c.customerId
  let pm := prevMonthYear now.month now.year
  { daily := upsertAll (dailyRows now.str now.key u up.daily) db.daily
    monthly := upsertAll (hoadonMonthlyRows u up.bills)
      (upsertAll (monthlyRows u pm.1 pm.2 up.monthPrev)
        (upsertAll (monthlyRows u now.month now.year up.monthCur) db.monthly))
    tienNo := upsertAll (tienNoRows now.str u up.bills) db.tienNo
    outage := upsertAll (outageRows now.str u up.outage) db.outage }

/-- The batch plan of `_async_update_data`: 15-day windows (given as day
numbers) from the fixed start date until today. -/
def fetchPlan (cur today : Nat) : List (Nat × Nat) :=
  if cur < today then (cur, min (cur + 14) today) :: fetchPlan (min (cur + 14) today + 1) today
  else []
termination_by today + 1 - cur
decreasing_by
  simp_wf
  omega

/-- The observable behaviour of one update: the daily fetch windows
requested and the database state written. -/
def updateBehavior (c : Coord) (startDay todayDay : Nat) (now : NowInfo)
    (up : Upstream) (db : DB) : List (Nat × Nat) × DB :=
  (fetchPlan startDay todayDay, runCycle c now up db)

/-! ### The 401/re-login retry of `get_chisongay` (generic-region branch) -/

/-- An HTTP response to the data endpoint: status code and (already
decoded) JSON body. -/
structure HttpResp where
  status : Nat
  body : List Dict

/-- The generic-region branch of `EVNAPI.get_chisongay`
(npc_api.py lines 653-694), against an oracle `resps` giving the response to
the n-th request of this call.  Returns the result and the number of
requests issued to the data endpoint.  Control flow: missing token triggers
a login (failure returns `None` with no request); a 401 first response
triggers one re-login and, on login success, a single retry whose non-200
status returns `None`; a non-200, non-401 first response returns `None`. -/
def getChisongay (hasToken loginOk : Bool) (resps : Nat → HttpResp) :
    Option (List Dict) × Nat :=
  if !hasToken ∧ !loginOk then (none, 0)
  else
    let r0 := resps 0
    if r0.status = 401 then
      if loginOk then
        let r1 := resps 1
        if r1.status ≠ 200 then (none, 2) else (some r1.body, 2)
      else (none, 1)
    else if r0.status ≠ 200 then (none, 1)
    else (some r0.body, 1)

/-- Python `float(x)` on a value: numbers pass through, strings are parsed
as decimal literals (surrounding whitespace ignored), `None` raises
(`TypeError`), modelled as `none`. -/
def pyToFloat : PyVal → Option Rat
  | vNone => none
  | vNum q => some q
  | vStr s => pyFloatOfString (String.mk (pyStrip s.toList))

/-- `_convert_hcmc_to_standard_format` on one record: copy the record, set
`NGAY` from `ngayFull`, `CHISO_MOI`/`CHISO` from `tong_p_giao` with commas
removed then stripped then parsed as a float, and
`DIEN_TIEU_THU`/`SAN_LUONG` from `Tong`; a failing float conversion leaves
the fields unset (`except: pass`). -/
def convertHcmcRecord (r : Dict) : Dict :=
  let cr := r
  let cr :=
    match dget r "ngayFull" with
    | some v => dinsert cr "NGAY" v
    | none => cr
  let cr :=
    match dget r "tong_p_giao" with
    | some v =>
      match pyFloatOfString (String.mk (pyStrip ((pyStr v).toList.filter (fun c => !(c == ','))))) with
      | some q => dinsert (dinsert cr "CHISO_MOI" (vNum q)) "CHISO" (vNum q)
      | none => cr
    | none => cr
  match dget r "Tong" with
  | some v =>
    match pyToFloat v with
    | some q => dinsert (dinsert cr "DIEN_TIEU_THU" (vNum q)) "SAN_LUONG" (vNum q)
    | none => cr
  | none => cr

/-- The decoded JSON body of an HCMC daily-data response, in the shape the
branch inspects: the `state` value, whether the `"data"` key is present,
and `data["data"].get("sanluong_tungngay", [])` (`some records` when that
value is a list — a missing key defaults to the empty list — and `none`
when it is present but not a list, which falls through to the error
return). -/
structure HcmcBody where
  state : PyVal
  hasData : Bool
  sanluongTungngay : Option (List Dict)

/-- An HTTP response of the HCMC endpoint: status, and the decoded JSON
body (`none` when reading or `json.loads` raises). -/
structure HcmcResp where
  status : Nat
  decoded : Option HcmcBody

/-- The HCMC branch of `EVNAPI.get_chisongay` (npc_api.py lines 553-599),
against an oracle `resps` giving the response to the n-th request of this
call.  Returns the result and the number of requests issued.  Control
flow: a missing token or session cookie triggers a login (failure returns
`None` with no request); then a single request is made and any non-200
status — including 401 — returns `None` immediately: this branch has no
re-authentication and no retry.  On 200, the body is decoded and a
`state == "success"` response with a `"data"` key and a list of records
is converted; anything else returns `None`. -/
def getChisongayHcmc (hasToken hasSession loginOk : Bool) (resps : Nat → HcmcResp) :
    Option (List Dict) × Nat :=
  if !hasToken ∧ !loginOk then (none, 0)
  else if !hasSession ∧ !loginOk then (none, 0)
  else
    let r0 := resps 0
    if r0.status ≠ 200 then (none, 1)
    else
      match r0.decoded with
      | none => (none, 1)
      | some body =>
        if body.state == vStr "success" ∧ body.hasData = true then
          match body.sanluongTungngay with
          | some records => (some (records.map convertHcmcRecord), 1)
          | none => (none, 1)
        else (none, 1)

/-! ### SPC outage record conversion -/

/-- `cs` starts with `p` (character-level `str.startswith`). -/
def charsStartWith : List Char → List Char → Bool
  | _, [] => true
  | [], _ :: _ => false
  | c :: cs, p :: ps => if c = p then charsStartWith cs ps else false

/-- Python `s.startswith(p)`. -/
def strStartsWith (s p : String) : Bool := charsStartWith s.toList p.toList

/-- Python `s.split(sep)` for nonempty `sep`: left-to-right scan with
non-overlapping matches.  The fuel argument (initialised to the length of
the scanned list, which bounds the number of steps) keeps the recursion
structural. -/
def pySplitFuel (sep : List Char) : Nat → List Char → List Char → List (List Char)
  | _, [], acc => [acc.reverse]
  | 0, cs, acc => [acc.reverse ++ cs]
  | fuel + 1, c :: rest, acc =>
    if charsStartWith (c :: rest) sep ∧ sep ≠ [] then
      acc.reverse :: pySplitFuel sep fuel ((c :: rest).drop sep.length) []
    else pySplitFuel sep fuel rest (c :: acc)

/-- Python `s.split(sep)`, `sep` nonempty. -/
def pySplit (sep cs : List Char) : List (List Char) := pySplitFuel sep cs.length cs []

/-- Python `sep in s` for a nonempty separator, via the split used right
after it (`s.split(sep)` has more than one part exactly when `sep` occurs). -/
def substrContains (cs sep : List Char) : Bool := (pySplit sep cs).length != 1

/-- The separator `"ngày"` of the SPC combined date/time strings. -/
def ngaySep : List Char := "ngày".toList

/-- The `strTuNgay` step of `_convert_spc_outage_to_standard_format`:
`"<time> ngày <date>"` is split at `"ngày"`; with exactly two parts, the
stripped pieces become `THOI_GIAN_BAT_DAU`, `NGAY_BAT_DAU` and `NGAY`. -/
def convTuNgay (r cr : Dict) : Dict :=
  match dget r "strTuNgay" with
  | some v =>
    if pyTruthy v then
      if substrContains (pyStrip (pyStr v).toList) ngaySep then
        match pySplit ngaySep (pyStrip (pyStr v).toList) with
        | [p1, p2] =>
          dinsert (dinsert (dinsert cr "THOI_GIAN_BAT_DAU" (vStr (String.mk (pyStrip p1))))
            "NGAY_BAT_DAU" (vStr (String.mk (pyStrip p2)))) "NGAY" (vStr (String.mk (pyStrip p2)))
        | _ => cr
      else cr
    else cr
  | none => cr

/-- The `strDenNgay` step: symmetric, producing `THOI_GIAN_KET_THUC` and
`NGAY_KET_THUC`. -/
def convDenNgay (r cr : Dict) : Dict :=
  match dget r "strDenNgay" with
  | some v =>
    if pyTruthy v then
      if substrContains (pyStrip (pyStr v).toList) ngaySep then
        match pySplit ngaySep (pyStrip (pyStr v).toList) with
        | [p1, p2] =>
          dinsert (dinsert cr "THOI_GIAN_KET_THUC" (vStr (String.mk (pyStrip p1))))
            "NGAY_KET_THUC" (vStr (String.mk (pyStrip p2)))
        | _ => cr
      else cr
    else cr
  | none => cr

/-- The `strLyDoMatDien` step: copied into `LY_DO` and `ly_do`. -/
def convLyDo (r cr : Dict) : Dict :=
  match dget r "strLyDoMatDien" with
  | some v => dinsert (dinsert cr "LY_DO" v) "ly_do" v
  | none => cr

/-- The `strDiaChi` step: copied into `DIA_CHI`, `dia_chi`, `KHU_VUC`,
`khu_vuc`. -/
def convDiaChi (r cr : Dict) : Dict :=
  match dget r "strDiaChi" with
  | some v => dinsert (dinsert (dinsert (dinsert cr "DIA_CHI" v) "dia_chi" v) "KHU_VUC" v) "khu_vuc" v
  | none => cr

/-- `_convert_spc_outage_to_standard_format` on one record: start from a
copy of the record and apply the four steps in source order. -/
def convertSpcOutage (r : Dict) : Dict :=
  convDiaChi r (convLyDo r (convDenNgay r (convTuNgay r r)))

/-! ### The static file view (`EVNStaticView.get`) -/

/-- The filesystem as the view observes it: path resolution (`Path.resolve`,
`none` when it raises), file-existence, and file reading (`none` when
reading raises). -/
structure FS where
  resolvePath : String → Option String
  isFile : String → Bool
  readFile : String → Option String

/-- An HTTP response of the view: status and the served file content
(`none` for the plain-text error responses, which carry no file content). -/
structure HResp where
  status : Nat
  file : Option String
  deriving DecidableEq, Repr

/-- `pathlib` `/`-join: an absolute right operand replaces the left one. -/
def pathJoin (base fn : String) : String :=
  if strStartsWith fn "/" then fn else base ++ "/" ++ fn

/-- Python `filename.endswith("/")`. -/
def endsSlash (s : String) : Bool := s.toList.reverse.head? == some '/'

/-- The filename defaulting of `EVNStaticView.get`: empty or
directory-style names get `index.html` appended. -/
def defaultIndex (filename : String) : String :=
  if filename = "" ∨ endsSlash filename then
    (if filename = "" then "index.html" else filename ++ "index.html")
  else filename

/-- `EVNStaticView.get`: join, resolve, compare against the resolved webui
path with `str.startswith`, then serve the file.  Resolution errors give
400, a failed prefix check 403, a missing file 404, a read error 500. -/
def staticGet (fs : FS) (webui filename : String) : HResp :=
  let fn := defaultIndex filename
  let fp := pathJoin webui fn
  match fs.resolvePath fp with
  | none => ⟨400, none⟩
  | some rp =>
    match fs.resolvePath webui with
    | none => ⟨400, none⟩
    | some rw =>
      if !(strStartsWith rp rw) then ⟨403, none⟩
      else if !(fs.isFile rp) then ⟨404, none⟩
      else
        match fs.readFile rp with
        | some content => ⟨200, some content⟩
        | none => ⟨500, none⟩

/-- Path `p` lies inside directory `dir` (both in resolved, canonical form):
it is the directory itself or a descendant.  This is what "inside the webui
directory" means; note it is strictly stronger than the `startswith` string
test used by the code. -/
def insideDir (dir p : String) : Bool := p == dir || strStartsWith p (dir ++ "/")

/-! ### Auxiliary definitions for the statements and witnesses -/

/-- The `DD/MM/YYYY` rendering of a date. -/
def slashChars (d m y : Nat) : List Char := pad2 d ++ '/' :: (pad2 m ++ '/' :: pad4 y)

/-- The `YYYY-MM-DD` rendering of a date. -/
def isoChars (d m y : Nat) : List Char := pad4 y ++ '-' :: (pad2 m ++ '-' :: pad2 d)

/-- The `YYYYMMDD` rendering of a date. -/
def compactChars (d m y : Nat) : List Char := pad4 y ++ pad2 m ++ pad2 d

/-- The last value written for a key by a row list (later rows win). -/
def lastVal [DecidableEq κ] : List (κ × ν) → κ → Option ν
  | [], _ => none
  | kv :: rest, k =>
    match lastVal rest k with
    | some v => some v
    | none => if kv.1 = k then some kv.2 else none

/-- Field `f` of record `r` yields no parsed date: the field is absent, or
its value is skipped or fails every format. -/
def fieldFails (r : Dict) (f : String) : Bool :=
  (((dget r f).map (fun v => tryField f v)).getD none).isNone

/-- Witness input: a daily record for 01/01/2026 with meter reading 100. -/
def exDaily1 : Dict := [("NGAY", PyVal.vStr "01/01/2026"), ("CHISO_MOI", PyVal.vNum 100)]

/-- Witness input: a daily record for 02/01/2026 with meter reading 110. -/
def exDaily2 : Dict := [("NGAY", PyVal.vStr "02/01/2026"), ("CHISO_MOI", PyVal.vNum 110)]

/-- Witness input: response oracle answering 401 first, then 200. -/
def exResps : Nat → HttpResp :=
  fun n => if n = 0 then ⟨401, []⟩ else ⟨200, [[("NGAY", PyVal.vStr "01/01/2026")]]⟩

/-- Counterexample input: a well-formed successful HCMC body. -/
def exHcmcBody : HcmcBody :=
  ⟨PyVal.vStr "success", true, some [[("ngayFull", PyVal.vStr "01/01/2026")]]⟩

/-- Counterexample input: an HCMC response oracle answering 401 first and
200 with a good body on any further request. -/
def exHcmcResps : Nat → HcmcResp :=
  fun n => if n = 0 then ⟨401, some exHcmcBody⟩ else ⟨200, some exHcmcBody⟩

/-- Witness input: an SPC outage record with combined date/time strings. -/
def exOutage : Dict :=
  [("strTuNgay", PyVal.vStr "08:00:00 ngày 01/02/2026"),
   ("strDenNgay", PyVal.vStr "08:15:00 ngày 01/02/2026")]

/-- Witness input: a record none of whose date fields parses. -/
def exBadRecord : Dict := [("NGAY", PyVal.vStr "not a date"), ("THOI_DIEM", PyVal.vNone)]

/-- Counterexample filesystem: `/config/webui2` is a sibling of the webui
directory `/config/webui`; resolution follows real path semantics (`..`
collapsed), and the sibling file exists. -/
def exFS : FS where
  resolvePath := fun p =>
    if p = "/config/webui/../webui2/secret.txt" then some "/config/webui2/secret.txt"
    else if p = "/config/webui" then some "/config/webui"
    else none
  isFile := fun p => p == "/config/webui2/secret.txt"
  readFile := fun p => if p = "/config/webui2/secret.txt" then some "SECRET" else none

/-- Witness filesystem: a well-behaved webui directory containing
`index.html`. -/
def exFS2 : FS where
  resolvePath := fun p =>
    if p = "/config/webui/index.html" then some "/config/webui/index.html"
    else if p = "/config/webui" then some "/config/webui"
    else none
  isFile := fun p => p == "/config/webui/index.html"
  readFile := fun p => if p = "/config/webui/index.html" then some "<html></html>" else none

/-- Witness input: clock values for one cycle. -/
def exNow : NowInfo := ⟨"09-10-2026", (2026, 10, 9), 10, 2026⟩

/-- Witness input: upstream payloads for one cycle. -/
def exUp : Upstream := ⟨[exDaily1, exDaily2], [], [], [], []⟩

/-- Witness input: the empty database. -/
def exDB : DB := ⟨fun _ => none, fun _ => none, fun _ => none, fun _ => none⟩

/-! ## Helper lemmas -/

theorem digitChar_lt (n : Nat) : n % 10 < 10 := Nat.mod_lt _ (by omega)

theorem isDigit_digitChar (n : Nat) : (digitChar n).isDigit = true := by
  have h : ∀ k, k < 10 → (digitCharAux k).isDigit = true := by decide
  exact h _ (digitChar_lt n)

theorem dval_digitChar (n : Nat) : dval (digitChar n) = n % 10 := by
  have h : ∀ k, k < 10 → dval (digitCharAux k) = k := by decide
  exact h _ (digitChar_lt n)

theorem ws_digitChar (n : Nat) : (digitChar n).isWhitespace = false := by
  have h : ∀ k, k < 10 → (digitCharAux k).isWhitespace = false := by decide
  exact h _ (digitChar_lt n)

theorem lower_digitChar (n : Nat) : lowerChar (digitChar n) = digitChar n := by
  have h : ∀ k, k < 10 → lowerChar (digitCharAux k) = digitCharAux k := by decide
  exact h _ (digitChar_lt n)

theorem beqSpace_digitChar (n : Nat) : (digitChar n == ' ') = false := by
  have h : ∀ k, k < 10 → (digitCharAux k == ' ') = false := by decide
  exact h _ (digitChar_lt n)

theorem digitChar_ne_space (n : Nat) : digitChar n ≠ ' ' := by
  have h : ∀ k, k < 10 → digitCharAux k ≠ ' ' := by decide
  exact h _ (digitChar_lt n)

theorem digitChar_ne_slash (n : Nat) : digitChar n ≠ '/' := by
  have h : ∀ k, k < 10 → digitCharAux k ≠ '/' := by decide
  exact h _ (digitChar_lt n)

theorem digitChar_ne_dash (n : Nat) : digitChar n ≠ '-' := by
  have h : ∀ k, k < 10 → digitCharAux k ≠ '-' := by decide
  exact h _ (digitChar_lt n)

theorem daysInMonth_le (y m : Nat) : daysInMonth y m ≤ 31 := by
  unfold daysInMonth
  split_ifs <;> omega

theorem validDate_bounds {d m y : Nat} (h : validDate d m y = true) :
    1 ≤ d ∧ d ≤ 31 ∧ 1 ≤ m ∧ m ≤ 12 ∧ 1 ≤ y ∧ y ≤ 9999 := by
  have hd := daysInMonth_le y m
  simp only [validDate, decide_eq_true_eq] at h
  omega

theorem dropWhile_all_false (p : Char → Bool) (l : List Char)
    (h : l.all (fun c => !p c) = true) : l.dropWhile p = l := by
  induction l with
  | nil => rfl
  | cons c t _ =>
    simp only [List.all_cons, Bool.and_eq_true, Bool.not_eq_eq_eq_not, Bool.not_true] at h
    simp [List.dropWhile_cons, h.1]

theorem pyStrip_id (cs : List Char) (h : cs.all (fun c => !c.isWhitespace) = true) :
    pyStrip cs = cs := by
  unfold pyStrip
  rw [dropWhile_all_false _ _ h, dropWhile_all_false, List.reverse_reverse]
  simpa using h

/-! ## Round-trips of the date renderings through the strptime embeddings -/

theorem parseSlash_render (d m y : Nat) (hv : validDate d m y = true) :
    parseSlash (slashChars d m y) = some (d, m, y) := by
  obtain ⟨hd1, hd2, hm1, hm2, hy1, hy2⟩ := validDate_bounds hv
  show parseSlash [digitChar (d / 10), digitChar d, '/', digitChar (m / 10), digitChar m, '/',
    digitChar (y / 1000), digitChar (y / 100), digitChar (y / 10), digitChar y] = some (d, m, y)
  rw [parseSlash]
  rw [if_pos (by simp [isDigit_digitChar])]
  rw [dayField, if_neg (by simp [digitChar_ne_space]),
    if_pos ⟨isDigit_digitChar _, isDigit_digitChar _⟩]
  simp only [dval_digitChar]
  have ed : d / 10 % 10 * 10 + d % 10 = d := by omega
  have em : m / 10 % 10 * 10 + m % 10 = m := by omega
  have ey : y / 1000 % 10 * 1000 + y / 100 % 10 * 100 + y / 10 % 10 * 10 + y % 10 = y := by omega
  rw [ed, em, ey, hv]
  simp

theorem parseIso_render (d m y : Nat) (hv : validDate d m y = true) :
    parseIso (isoChars d m y) = some (d, m, y) := by
  obtain ⟨hd1, hd2, hm1, hm2, hy1, hy2⟩ := validDate_bounds hv
  show parseIso [digitChar (y / 1000), digitChar (y / 100), digitChar (y / 10), digitChar y, '-',
    digitChar (m / 10), digitChar m, '-', digitChar (d / 10), digitChar d] = some (d, m, y)
  rw [parseIso]
  rw [if_pos (by simp [isDigit_digitChar])]
  rw [dayField, if_neg (by simp [digitChar_ne_space]),
    if_pos ⟨isDigit_digitChar _, isDigit_digitChar _⟩]
  simp only [dval_digitChar]
  have ed : d / 10 % 10 * 10 + d % 10 = d := by omega
  have em : m / 10 % 10 * 10 + m % 10 = m := by omega
  have ey : y / 1000 % 10 * 1000 + y / 100 % 10 * 100 + y / 10 % 10 * 10 + y % 10 = y := by omega
  rw [ed, em, ey, hv]
  simp

theorem parseCompact_render (d m y : Nat) (hv : validDate d m y = true) :
    parseCompact (compactChars d m y) = some (d, m, y) := by
  obtain ⟨hd1, hd2, hm1, hm2, hy1, hy2⟩ := validDate_bounds hv
  show parseCompact [digitChar (y / 1000), digitChar (y / 100), digitChar (y / 10), digitChar y,
    digitChar (m / 10), digitChar m, digitChar (d / 10), digitChar d] = some (d, m, y)
  rw [parseCompact]
  rw [if_pos (by simp [isDigit_digitChar])]
  simp only [dval_digitChar]
  have ed : d / 10 % 10 * 10 + d % 10 = d := by omega
  have em : m / 10 % 10 * 10 + m % 10 = m := by omega
  have ey : y / 1000 % 10 * 1000 + y / 100 % 10 * 100 + y / 10 % 10 * 10 + y % 10 = y := by omega
  rw [ed, em, ey, hv]
  simp

theorem tryFormats_slash (d m y : Nat) (hv : validDate d m y = true) :
    tryFormats (slashChars d m y) = some (fmtL d m y) := by
  rw [tryFormats, if_pos ⟨rfl, rfl⟩, parseSlash_render d m y hv]
  rfl

theorem tryFormats_iso (d m y : Nat) (hv : validDate d m y = true) :
    tryFormats (isoChars d m y) = some (fmtL d m y) := by
  rw [tryFormats, if_neg, if_pos ⟨rfl, rfl⟩, parseIso_render d m y hv]
  · rfl
  · rintro ⟨-, h⟩
    rw [show (isoChars d m y)[2]? = some (digitChar (y / 10)) from rfl] at h
    exact digitChar_ne_slash (y / 10) (Option.some.inj h)

theorem tryFormats_compact (d m y : Nat) (hv : validDate d m y = true) :
    tryFormats (compactChars d m y) = some (fmtL d m y) := by
  rw [tryFormats, if_neg, if_neg, if_neg,
    if_pos ⟨rfl, by simp [compactChars, pad2, pad4, isDigit_digitChar]⟩,
    parseCompact_render d m y hv]
  · rfl
  · rintro ⟨h, -⟩
    have h8 : (8 : Nat) = 10 := h
    omega
  · rintro ⟨h, -⟩
    have h8 : (8 : Nat) = 10 := h
    omega
  · rintro ⟨h, -⟩
    have h8 : (8 : Nat) = 10 := h
    omega

/-! ## From renderings through `tryField` -/

theorem ws_slashLit : ('/').isWhitespace = false := by decide

theorem ws_dashLit : ('-').isWhitespace = false := by decide

theorem lower_slashLit : lowerChar '/' = '/' := by decide

theorem lower_dashLit : lowerChar '-' = '-' := by decide

theorem beqSpace_slashLit : ('/' == ' ') = false := by decide

theorem beqSpace_dashLit : ('-' == ' ') = false := by decide

theorem digitChar_ne_nChar (n : Nat) : digitChar n ≠ 'n' := by
  have h : ∀ k, k < 10 → digitCharAux k ≠ 'n' := by decide
  exact h _ (digitChar_lt n)

theorem nullChars : "null".toList = ['n', 'u', 'l', 'l'] := rfl

theorem noneChars : "none".toList = ['n', 'o', 'n', 'e'] := rfl

theorem tryField_slash (f : String) (d m y : Nat) (hv : validDate d m y = true) :
    tryField f (vStr (String.mk (slashChars d m y))) = some (fmtL d m y) := by
  have h1 : pyStrip (pyStr (vStr (String.mk (slashChars d m y)))).toList = slashChars d m y :=
    pyStrip_id (slashChars d m y) (by simp [slashChars, pad2, pad4, ws_digitChar, ws_slashLit])
  have h2 : skipVal (slashChars d m y) = false := by
    simp [skipVal, slashChars, pad2, pad4, nullChars, noneChars, lower_digitChar,
      digitChar_ne_nChar]
  have h3 : (slashChars d m y).any (fun c => c == ' ') = false := by
    simp [slashChars, pad2, pad4, beqSpace_digitChar, beqSpace_slashLit]
  rw [tryField, h1, h2]
  simp only [Bool.false_eq_true, if_false]
  rw [splitThoiDiem, if_neg (by simp [h3])]
  exact tryFormats_slash d m y hv

theorem tryField_iso (f : String) (d m y : Nat) (hv : validDate d m y = true) :
    tryField f (vStr (String.mk (isoChars d m y))) = some (fmtL d m y) := by
  have h1 : pyStrip (pyStr (vStr (String.mk (isoChars d m y)))).toList = isoChars d m y :=
    pyStrip_id (isoChars d m y) (by simp [isoChars, pad2, pad4, ws_digitChar, ws_dashLit])
  have h2 : skipVal (isoChars d m y) = false := by
    simp [skipVal, isoChars, pad2, pad4, nullChars, noneChars, lower_digitChar,
      digitChar_ne_nChar]
  have h3 : (isoChars d m y).any (fun c => c == ' ') = false := by
    simp [isoChars, pad2, pad4, beqSpace_digitChar, beqSpace_dashLit]
  rw [tryField, h1, h2]
  simp only [Bool.false_eq_true, if_false]
  rw [splitThoiDiem, if_neg (by simp [h3])]
  exact tryFormats_iso d m y hv

theorem tryField_compact (f : String) (d m y : Nat) (hv : validDate d m y = true) :
    tryField f (vStr (String.mk (compactChars d m y))) = some (fmtL d m y) := by
  have h1 : pyStrip (pyStr (vStr (String.mk (compactChars d m y)))).toList = compactChars d m y :=
    pyStrip_id (compactChars d m y) (by simp [compactChars, pad2, pad4, ws_digitChar])
  have h2 : skipVal (compactChars d m y) = false := by
    simp [skipVal, compactChars, pad2, pad4, nullChars, noneChars, lower_digitChar,
      digitChar_ne_nChar]
  have h3 : (compactChars d m y).any (fun c => c == ' ') = false := by
    simp [compactChars, pad2, pad4, beqSpace_digitChar]
  rw [tryField, h1, h2]
  simp only [Bool.false_eq_true, if_false]
  rw [splitThoiDiem, if_neg (by simp [h3])]
  exact tryFormats_compact d m y hv

theorem scanFields_cons_found (r : Dict) (g : String) (rest : List String) (v : PyVal)
    (hdg : dget r g = some v) :
    scanFields r (g :: rest) =
      match tryField g v with
      | some out => some out
      | none => scanFields r rest := by
  rw [scanFields, hdg]

theorem scanFields_cons_absent (r : Dict) (g : String) (rest : List String)
    (hdg : dget r g = none) :
    scanFields r (g :: rest) = scanFields r rest := by
  rw [scanFields, hdg]

theorem scanFields_single (fields : List String) (f : String) (v : PyVal) (out : List Char)
    (hmem : f ∈ fields) (hsucc : tryField f v = some out) :
    scanFields [(f, v)] fields = some out := by
  induction fields with
  | nil => cases hmem
  | cons g rest ih =>
    by_cases hg : f = g
    · subst hg
      rw [scanFields_cons_found [(f, v)] f rest v (by simp [dget]), hsucc]
    · rw [scanFields_cons_absent [(f, v)] g rest (by simp [dget, hg])]
      exact ih ((List.mem_cons.mp hmem).resolve_left hg)

theorem scanFields_none (r : Dict) (fields : List String)
    (h : ∀ f ∈ fields, fieldFails r f = true) : scanFields r fields = none := by
  induction fields with
  | nil => rfl
  | cons g rest ih =>
    have hg := h g (List.mem_cons_self g rest)
    unfold fieldFails at hg
    cases hdg : dget r g with
    | none =>
      rw [scanFields_cons_absent r g rest hdg]
      exact ih (fun f hf => h f (List.mem_cons_of_mem g hf))
    | some v =>
      rw [hdg] at hg
      simp at hg
      rw [scanFields_cons_found r g rest v hdg, hg]
      exact ih (fun f hf => h f (List.mem_cons_of_mem g hf))

/-! ## Claims C1, C5, C9 -/

/-- C1: for every valid date string in one of the formats DD/MM/YYYY,
YYYY-MM-DD or YYYYMMDD appearing in a recognized date field of a record,
`_parse_date` returns the same calendar date rendered in DD-MM-YYYY form
(strftime rendering: zero-padded day and month, unpadded year). -/
theorem npcC1_parse_date_roundtrip (f : String) (hf : f ∈ dateFields) (d m y : Nat)
    (hv : validDate d m y = true) (s : String)
    (hs : s = String.mk (slashChars d m y) ∨ s = String.mk (isoChars d m y) ∨
      s = String.mk (compactChars d m y)) (today : String) :
    parseDate today [(f, PyVal.vStr s)] = fmtDMY d m y := by
  have key : tryField f (vStr s) = some (fmtL d m y) := by
    rcases hs with h | h | h
    · rw [h]
      exact tryField_slash f d m y hv
    · rw [h]
      exact tryField_iso f d m y hv
    · rw [h]
      exact tryField_compact f d m y hv
  unfold parseDate
  rw [scanFields_single dateFields f (vStr s) (fmtL d m y) hf key]
  rfl

/-- Witness for C1: the date 1 February 2026 given as "01/02/2026" in the
field `NGAY` comes back as "01-02-2026". -/
theorem npcC1_witness :
    ("NGAY" ∈ dateFields ∧ validDate 1 2 2026 = true) ∧
    parseDate "09-10-2026" [("NGAY", PyVal.vStr (String.mk (slashChars 1 2 2026)))] =
      fmtDMY 1 2 2026 :=
  ⟨⟨by decide, by decide⟩,
    npcC1_parse_date_roundtrip "NGAY" (by decide) 1 2 2026 (by decide) _ (Or.inl rfl) "09-10-2026"⟩

/-- C5 (code bug): "01012026" is the valid date 1 January 2026 in DDMMYYYY
form, but `_parse_date` returns the current-date fallback instead of
"01-01-2026": the all-digit 8-character branch tries only `%Y%m%d`, whose
failure skips the field, so the `%d%m%Y` branch below it is unreachable. -/
theorem npcC5_ddmmyyyy_falls_back :
    validDate 1 1 2026 = true ∧
    parseDate "31-12-2025" [("NGAY", PyVal.vStr "01012026")] = "31-12-2025" ∧
    "31-12-2025" ≠ fmtDMY 1 1 2026 :=
  ⟨by decide, by decide, by decide⟩

/-- C9: when no recognized date field of a record contains a parseable
date, `_parse_date` returns the current date (in DD-MM-YYYY form) instead
of failing. -/
theorem npcC9_unparseable_falls_back (today : String) (r : Dict)
    (h : ∀ f ∈ dateFields, fieldFails r f = true) :
    parseDate today r = today := by
  unfold parseDate
  rw [scanFields_none r dateFields h]

/-- Witness for C9: a record with garbage in `NGAY` and `None` in
`THOI_DIEM` falls back to the current date. -/
theorem npcC9_witness :
    (∀ f ∈ dateFields, fieldFails exBadRecord f = true) ∧
    parseDate "09-10-2026" exBadRecord = "09-10-2026" :=
  ⟨by decide, npcC9_unparseable_falls_back "09-10-2026" exBadRecord (by decide)⟩

/-! ## Claim C2: daily consumption -/

theorem processDaily_getElem (today u : String) (l : List Dict) (prev : Option Rat) (i : Nat)
    (ri ri1 : Dict) (hi : l[i]? = some ri) (hi1 : l[i + 1]? = some ri1) :
    (processDaily today u prev l)[i + 1]? =
      some (dailyRow today u (parseFloat (chiSoVal ri)) ri1) := by
  induction l generalizing prev i with
  | nil => simp at hi
  | cons r rest ih =>
    cases i with
    | zero =>
      simp only [List.getElem?_cons_zero, Option.some.injEq] at hi
      subst hi
      rw [List.getElem?_cons_succ] at hi1
      cases rest with
      | nil => simp at hi1
      | cons r2 t =>
        simp only [List.getElem?_cons_zero, Option.some.injEq] at hi1
        subst hi1
        rw [show processDaily today u prev (r :: r2 :: t) =
          dailyRow today u prev r ::
            (dailyRow today u (parseFloat (chiSoVal r)) r2 ::
              processDaily today u (parseFloat (chiSoVal r2)) t) from rfl]
        rw [List.getElem?_cons_succ, List.getElem?_cons_zero]
    | succ j =>
      rw [List.getElem?_cons_succ] at hi
      rw [List.getElem?_cons_succ] at hi1
      rw [show processDaily today u prev (r :: rest) =
        dailyRow today u prev r :: processDaily today u (parseFloat (chiSoVal r)) rest from rfl]
      rw [List.getElem?_cons_succ]
      exact ih (parseFloat (chiSoVal r)) j hi hi1

/-- C2: in the sorted daily series, the consumption stored for a record is
the meter delta to the previous processed record whenever both readings are
present and the current one is not below the previous one, and otherwise
the provider-supplied consumption field (`DIEN_TIEU_THU`/`SAN_LUONG`
fallback chain). -/
theorem npcC2_daily_consumption (today : String) (nowKey : Nat × Nat × Nat) (u : String)
    (data : List Dict) (i : Nat) (ri ri1 : Dict)
    (hi : (stableSortBy (sortKey today nowKey) data)[i]? = some ri)
    (hi1 : (stableSortBy (sortKey today nowKey) data)[i + 1]? = some ri1) :
    ((dailyRows today nowKey u data)[i + 1]?).map (fun kv => kv.2.2) =
      some (match parseFloat (chiSoVal ri), parseFloat (chiSoVal ri1) with
        | some p, some c => if p ≤ c then some (c - p) else fallbackDien ri1
        | _, _ => fallbackDien ri1) := by
  unfold dailyRows
  rw [processDaily_getElem today u _ none i ri ri1 hi hi1]
  rfl

/-- Witness for C2: two consecutive records with readings 100 and 110. -/
theorem npcC2_witness :
    ((stableSortBy (sortKey "09-10-2026" (2026, 10, 9)) [exDaily1, exDaily2])[0]? =
        some exDaily1 ∧
      (stableSortBy (sortKey "09-10-2026" (2026, 10, 9)) [exDaily1, exDaily2])[1]? =
        some exDaily2) ∧
    ((dailyRows "09-10-2026" (2026, 10, 9) "PA0400065097" [exDaily1, exDaily2])[1]?).map
        (fun kv => kv.2.2) =
      some (match parseFloat (chiSoVal exDaily1), parseFloat (chiSoVal exDaily2) with
        | some p, some c => if p ≤ c then some (c - p) else fallbackDien exDaily2
        | _, _ => fallbackDien exDaily2) :=
  ⟨⟨by decide, by decide⟩,
    npcC2_daily_consumption "09-10-2026" (2026, 10, 9) "PA0400065097" [exDaily1, exDaily2] 0
      exDaily1 exDaily2 (by decide) (by decide)⟩

/-! ## Claim C3: 401 retry -/

theorem getChisongay_generic_retry (loginOk : Bool) (resps : Nat → HttpResp)
    (h401 : (resps 0).status = 401) :
    (getChisongay true loginOk resps).1 =
      (if loginOk = true ∧ (resps 1).status = 200 then some (resps 1).body else none) ∧
    (getChisongay true loginOk resps).2 ≤ 2 := by
  unfold getChisongay
  cases loginOk with
  | false => simp [h401]
  | true =>
    by_cases h2 : (resps 1).status = 200
    · simp [h401, h2]
    · simp [h401, h2]

/-- C3 counterexample: the HCMC branch of `get_chisongay` is a fetch
operation of the region adapter on which the claimed 401-retry behaviour
is absent.  With a first response of 401 and a server that would answer
any retried request with 200 and a well-formed body, the operation still
returns `None` after exactly one request: no re-authentication, no
retry. -/
theorem npcC3_counterexample :
    (exHcmcResps 0).status = 401 ∧
    (exHcmcResps 1).status = 200 ∧
    (exHcmcResps 1).decoded = some exHcmcBody ∧
    exHcmcBody.state = PyVal.vStr "success" ∧
    getChisongayHcmc true true true exHcmcResps = (none, 1) :=
  ⟨rfl, rfl, rfl, rfl, rfl⟩

/-- C3 (amended): in `get_chisongay`, the generic-region branch retries
exactly once after a 401 — a successful re-login followed by a 200 retry
yields the retry body (non-`None`), a failed re-login or a non-200 retry
yields `None`, and at most two requests are ever issued — while the HCMC
branch performs no retry at all: a non-200 first response, 401 included,
yields `None` after a single request. -/
theorem npcC3_amended (loginOk : Bool) (resps : Nat → HttpResp) (hresps : Nat → HcmcResp)
    (h401 : (resps 0).status = 401) (h401h : (hresps 0).status = 401) :
    ((getChisongay true loginOk resps).1 =
        (if loginOk = true ∧ (resps 1).status = 200 then some (resps 1).body else none) ∧
      (getChisongay true loginOk resps).2 ≤ 2) ∧
    getChisongayHcmc true true loginOk hresps = (none, 1) := by
  constructor
  · exact getChisongay_generic_retry loginOk resps h401
  · unfold getChisongayHcmc
    simp [h401h]

/-- Witness for C3 (amended): a 401 then a 200 on the generic branch
succeeds on the retry; on the HCMC branch the same environment yields
`None` after one request. -/
theorem npcC3_amended_witness :
    ((exResps 0).status = 401 ∧ (exHcmcResps 0).status = 401) ∧
    (((getChisongay true true exResps).1 =
        (if true = true ∧ (exResps 1).status = 200 then some (exResps 1).body else none) ∧
      (getChisongay true true exResps).2 ≤ 2) ∧
    getChisongayHcmc true true true exHcmcResps = (none, 1)) :=
  ⟨⟨rfl, rfl⟩, npcC3_amended true exResps exHcmcResps rfl rfl⟩

/-! ## Claims C4, C7, C10: storage -/

theorem upsertAll_append_eq [DecidableEq κ] (a b : List (κ × ν)) (t : Table κ ν) :
    upsertAll (a ++ b) t = upsertAll b (upsertAll a t) := by
  unfold upsertAll
  rw [List.foldl_append]

theorem upsertAll_apply [DecidableEq κ] (rows : List (κ × ν)) (t : Table κ ν) (k : κ) :
    upsertAll rows t k =
      match lastVal rows k with
      | some v => some v
      | none => t k := by
  induction rows generalizing t with
  | nil => rfl
  | cons kv rest ih =>
    rw [show upsertAll (kv :: rest) t = upsertAll rest (upsert kv.1 kv.2 t) from rfl]
    rw [ih]
    rw [show lastVal (kv :: rest) k =
      (match lastVal rest k with
       | some v => some v
       | none => if kv.1 = k then some kv.2 else none) from rfl]
    cases lastVal rest k with
    | some v => rfl
    | none =>
      by_cases h : k = kv.1
      · subst h
        simp [upsert]
      · simp [upsert, h, Ne.symm h]

theorem upsertAll_idem [DecidableEq κ] (rows : List (κ × ν)) (t : Table κ ν) :
    upsertAll rows (upsertAll rows t) = upsertAll rows t := by
  funext k
  rw [upsertAll_apply, upsertAll_apply]
  cases lastVal rows k with
  | some v => rfl
  | none => rfl

theorem upsertAll_three_idem [DecidableEq κ] (r1 r2 r3 : List (κ × ν)) (t : Table κ ν) :
    upsertAll r3 (upsertAll r2 (upsertAll r1 (upsertAll r3 (upsertAll r2 (upsertAll r1 t))))) =
      upsertAll r3 (upsertAll r2 (upsertAll r1 t)) := by
  have fold : ∀ s : Table κ ν,
      upsertAll r3 (upsertAll r2 (upsertAll r1 s)) = upsertAll (r1 ++ r2 ++ r3) s := by
    intro s
    rw [upsertAll_append_eq, upsertAll_append_eq]
  rw [fold, fold]
  exact upsertAll_idem (κ := κ) (ν := ν) _ _

/-- C4: a second fetch-and-store cycle with the same upstream data (and the
same clock) leaves all four tables unchanged — the upsert semantics make
the cycle idempotent. -/
theorem npcC4_cycle_idempotent (c : Coord) (now : NowInfo) (up : Upstream) (db : DB) :
    runCycle c now up (runCycle c now up db) = runCycle c now up db := by
  simp only [runCycle]
  rw [DB.mk.injEq]
  refine ⟨?_, ?_, ?_, ?_⟩
  · exact upsertAll_idem (κ := String × String) (ν := DailyVal) _ _
  · exact upsertAll_three_idem (κ := String × PyVal × PyVal) (ν := MonthVal) _ _ _ _
  · exact upsertAll_idem (κ := String) (ν := BillVal) _ _
  · exact upsertAll_idem (κ := String × PyVal × PyVal) (ν := OutVal) _ _

/-- C7: the `tien_no_evn` table keeps at most one row per account (it is a
map keyed by `userevn`); a refresh overwrites that row from the first
unpaid (`CHUATT`) bill of the fetched list, and leaves the table untouched
when no unpaid bill is present. -/
theorem npcC7_tien_no (today u : String) (bills : List Dict) (t : Table String BillVal) :
    upsertAll (tienNoRows today u bills) t =
      match bills.find? isUnpaid with
      | some b => upsert u (billRow today u b).2 t
      | none => t := by
  induction bills with
  | nil => rfl
  | cons b rest ih =>
    by_cases h : isUnpaid b = true
    · rw [tienNoRows, if_pos h, List.find?_cons_of_pos _ h]
      rfl
    · rw [tienNoRows, if_neg h, List.find?_cons_of_neg _ (by simpa using h)]
      exact ih

/-- C10: the stored billing-cycle start day `ngaydauky` (1-31) has no
influence on an update: with identical upstream data and clock, two
coordinators differing only in `ngaydauky` issue the same daily fetch
windows and write identical rows to all four tables. -/
theorem npcC10_ngaydauky_no_influence (u : String) (n1 n2 : Nat)
    (_h1 : 1 ≤ n1 ∧ n1 ≤ 31) (_h2 : 1 ≤ n2 ∧ n2 ≤ 31)
    (startDay todayDay : Nat) (now : NowInfo) (up : Upstream) (db : DB) :
    updateBehavior ⟨u, n1⟩ startDay todayDay now up db =
      updateBehavior ⟨u, n2⟩ startDay todayDay now up db := rfl

/-- Witness for C10: start days 1 and 15 give identical behaviour. -/
theorem npcC10_witness :
    updateBehavior ⟨"PA0400065097", 1⟩ 0 20 exNow exUp exDB =
      updateBehavior ⟨"PA0400065097", 15⟩ 0 20 exNow exUp exDB :=
  npcC10_ngaydauky_no_influence "PA0400065097" 1 15 (by decide) (by decide) 0 20 exNow exUp exDB

/-! ## Claim C6: SPC outage conversion -/

theorem dget_append (l1 l2 : Dict) (k : String) :
    dget (l1 ++ l2) k =
      match dget l1 k with
      | some v => some v
      | none => dget l2 k := by
  induction l1 with
  | nil => rfl
  | cons p rest ih =>
    obtain ⟨a, b⟩ := p
    by_cases h : a = k
    · simp [dget, h]
    · simp [dget, h, ih]

theorem dget_filter_ne (d : Dict) (k key : String) (h : key ≠ k) :
    dget (d.filter (fun p => !(p.1 == k))) key = dget d key := by
  induction d with
  | nil => rfl
  | cons p rest ih =>
    obtain ⟨a, b⟩ := p
    by_cases hak : a = k
    · subst hak
      simp [List.filter_cons, dget, Ne.symm h, ih]
    · simp [List.filter_cons, hak, dget, ih]

theorem dget_filter_self (d : Dict) (k : String) :
    dget (d.filter (fun p => !(p.1 == k))) k = none := by
  induction d with
  | nil => rfl
  | cons p rest ih =>
    obtain ⟨a, b⟩ := p
    by_cases hak : a = k
    · simp [List.filter_cons, hak, ih]
    · simp [List.filter_cons, hak, dget, ih]

theorem dget_dinsert (d : Dict) (k : String) (v : PyVal) (key : String) :
    dget (dinsert d k v) key = if key = k then some v else dget d key := by
  unfold dinsert
  rw [dget_append]
  by_cases h : key = k
  · subst h
    rw [dget_filter_self]
    simp [dget]
  · rw [dget_filter_ne d k key h]
    cases hd : dget d key with
    | some w => simp [h]
    | none => simp [dget, h, Ne.symm h]

theorem convLyDo_preserves (r cr : Dict) (key : String)
    (h1 : key ≠ "LY_DO") (h2 : key ≠ "ly_do") :
    dget (convLyDo r cr) key = dget cr key := by
  unfold convLyDo
  cases dget r "strLyDoMatDien" with
  | none => rfl
  | some v => rw [dget_dinsert, if_neg h2, dget_dinsert, if_neg h1]

theorem convDiaChi_preserves (r cr : Dict) (key : String)
    (h1 : key ≠ "DIA_CHI") (h2 : key ≠ "dia_chi") (h3 : key ≠ "KHU_VUC")
    (h4 : key ≠ "khu_vuc") :
    dget (convDiaChi r cr) key = dget cr key := by
  unfold convDiaChi
  cases dget r "strDiaChi" with
  | none => rfl
  | some v =>
    rw [dget_dinsert, if_neg h4, dget_dinsert, if_neg h3, dget_dinsert, if_neg h2,
      dget_dinsert, if_neg h1]

theorem convTuNgay_eq (r cr : Dict) (vt : String) (t1 d1 : List Char)
    (hvt : dget r "strTuNgay" = some (vStr vt)) (hvtne : vt ≠ "")
    (hts : pySplit ngaySep (pyStrip vt.toList) = [t1, d1]) :
    convTuNgay r cr =
      dinsert (dinsert (dinsert cr "THOI_GIAN_BAT_DAU" (vStr (String.mk (pyStrip t1))))
        "NGAY_BAT_DAU" (vStr (String.mk (pyStrip d1)))) "NGAY" (vStr (String.mk (pyStrip d1))) := by
  unfold convTuNgay
  rw [hvt]
  simp only [pyStr, substrContains, hts]
  simp [pyTruthy, hvtne]

theorem convDenNgay_eq (r cr : Dict) (vd : String) (t2 d2 : List Char)
    (hvd : dget r "strDenNgay" = some (vStr vd)) (hvdne : vd ≠ "")
    (hds : pySplit ngaySep (pyStrip vd.toList) = [t2, d2]) :
    convDenNgay r cr =
      dinsert (dinsert cr "THOI_GIAN_KET_THUC" (vStr (String.mk (pyStrip t2))))
        "NGAY_KET_THUC" (vStr (String.mk (pyStrip d2))) := by
  unfold convDenNgay
  rw [hvd]
  simp only [pyStr, substrContains, hds]
  simp [pyTruthy, hvdne]

/-- C6: an SPC outage record whose `strTuNgay` is of the form
`"<time> ngày <date>"` (exactly one occurrence of `"ngày"`) converts to a
record with `THOI_GIAN_BAT_DAU` the stripped time part and `NGAY_BAT_DAU`
the stripped date part, and symmetrically `strDenNgay` yields
`THOI_GIAN_KET_THUC` and `NGAY_KET_THUC`. -/
theorem npcC6_spc_outage_split (r : Dict) (vt vd : String) (t1 d1 t2 d2 : List Char)
    (hvt : dget r "strTuNgay" = some (PyVal.vStr vt)) (hvtne : vt ≠ "")
    (hts : pySplit ngaySep (pyStrip vt.toList) = [t1, d1])
    (hvd : dget r "strDenNgay" = some (PyVal.vStr vd)) (hvdne : vd ≠ "")
    (hds : pySplit ngaySep (pyStrip vd.toList) = [t2, d2]) :
    dget (convertSpcOutage r) "THOI_GIAN_BAT_DAU" =
      some (PyVal.vStr (String.mk (pyStrip t1))) ∧
    dget (convertSpcOutage r) "NGAY_BAT_DAU" = some (PyVal.vStr (String.mk (pyStrip d1))) ∧
    dget (convertSpcOutage r) "THOI_GIAN_KET_THUC" =
      some (PyVal.vStr (String.mk (pyStrip t2))) ∧
    dget (convertSpcOutage r) "NGAY_KET_THUC" = some (PyVal.vStr (String.mk (pyStrip d2))) := by
  have e1 := convTuNgay_eq r r vt t1 d1 hvt hvtne hts
  have e2 := convDenNgay_eq r (convTuNgay r r) vd t2 d2 hvd hvdne hds
  refine ⟨?_, ?_, ?_, ?_⟩ <;>
    · unfold convertSpcOutage
      rw [convDiaChi_preserves _ _ _ (by decide) (by decide) (by decide) (by decide),
        convLyDo_preserves _ _ _ (by decide) (by decide), e2, e1]
      simp [dget_dinsert]

/-- Witness for C6: the record with `strTuNgay = "08:00:00 ngày 01/02/2026"`
and `strDenNgay = "08:15:00 ngày 01/02/2026"`. -/
theorem npcC6_witness :
    (dget exOutage "strTuNgay" = some (PyVal.vStr "08:00:00 ngày 01/02/2026") ∧
      pySplit ngaySep (pyStrip "08:00:00 ngày 01/02/2026".toList) =
        ["08:00:00 ".toList, " 01/02/2026".toList]) ∧
    (dget (convertSpcOutage exOutage) "THOI_GIAN_BAT_DAU" =
        some (PyVal.vStr (String.mk (pyStrip "08:00:00 ".toList))) ∧
      dget (convertSpcOutage exOutage) "NGAY_BAT_DAU" =
        some (PyVal.vStr (String.mk (pyStrip " 01/02/2026".toList))) ∧
      dget (convertSpcOutage exOutage) "THOI_GIAN_KET_THUC" =
        some (PyVal.vStr (String.mk (pyStrip "08:15:00 ".toList))) ∧
      dget (convertSpcOutage exOutage) "NGAY_KET_THUC" =
        some (PyVal.vStr (String.mk (pyStrip " 01/02/2026".toList)))) :=
  ⟨⟨by decide, by decide⟩,
    npcC6_spc_outage_split exOutage "08:00:00 ngày 01/02/2026" "08:15:00 ngày 01/02/2026"
      "08:00:00 ".toList " 01/02/2026".toList "08:15:00 ".toList " 01/02/2026".toList
      (by decide) (by decide) (by decide) (by decide) (by decide) (by decide)⟩

/-! ## Claim C8: static file serving -/

/-- C8 counterexample: the filename `../webui2/secret.txt` resolves to
`/config/webui2/secret.txt`, which lies outside the webui directory
`/config/webui`, yet the view serves it with status 200 — the
`str.startswith` check admits sibling directories sharing the string
prefix. -/
theorem npcC8_counterexample :
    exFS.resolvePath (pathJoin "/config/webui" (defaultIndex "../webui2/secret.txt")) =
      some "/config/webui2/secret.txt" ∧
    insideDir "/config/webui" "/config/webui2/secret.txt" = false ∧
    staticGet exFS "/config/webui" "../webui2/secret.txt" = ⟨200, some "SECRET"⟩ :=
  ⟨by decide, by decide, by decide⟩

/-- C8 (amended): the view returns 403 with no file content exactly when
the resolved path does not start (as a string) with the resolved webui
path; resolved paths that do start with it — which includes every file
inside the webui directory, but also sibling paths such as
`/config/webui2/...` — are served when they exist and are readable. -/
theorem npcC8_amended (fs : FS) (webui filename rp rwp : String)
    (h1 : fs.resolvePath (pathJoin webui (defaultIndex filename)) = some rp)
    (h2 : fs.resolvePath webui = some rwp) :
    (strStartsWith rp rwp = false → staticGet fs webui filename = ⟨403, none⟩) ∧
    (∀ content, strStartsWith rp rwp = true → fs.isFile rp = true →
      fs.readFile rp = some content → staticGet fs webui filename = ⟨200, some content⟩) := by
  constructor
  · intro hpre
    simp [staticGet, h1, h2, hpre]
  · intro content hpre hfile hread
    simp [staticGet, h1, h2, hpre, hfile, hread]

/-- Witness for C8 (amended): a normal `index.html` inside the webui
directory is served. -/
theorem npcC8_amended_witness :
    (exFS2.resolvePath (pathJoin "/config/webui" (defaultIndex "index.html")) =
        some "/config/webui/index.html" ∧
      exFS2.resolvePath "/config/webui" = some "/config/webui") ∧
    ((strStartsWith "/config/webui/index.html" "/config/webui" = false →
        staticGet exFS2 "/config/webui" "index.html" = ⟨403, none⟩) ∧
      (∀ content, strStartsWith "/config/webui/index.html" "/config/webui" = true →
        exFS2.isFile "/config/webui/index.html" = true →
        exFS2.readFile "/config/webui/index.html" = some content →
        staticGet exFS2 "/config/webui" "index.html" = ⟨200, some content⟩)) :=
  ⟨⟨by decide, by decide⟩,
    npcC8_amended exFS2 "/config/webui" "index.html" "/config/webui/index.html" "/config/webui"
      (by decide) (by decide)⟩

end NpcSpec
